import Mathlib

set_option maxRecDepth 10000

/-!
Verification development for the gumroad-download repository.

The definitions below are a shallow embedding of the downloading code in
src/download_manager.py and of the record accessors in src/gumroad_library.py.
The HTTP transport, the filesystem and the helper libraries (mimetypes,
pathvalidate) are modelled as an explicit environment; the mutable session
counters and the filesystem are threaded as an explicit state value.
Python exceptions are modelled with Except, paired with the state so that
side effects performed before a raise are preserved, exactly as in Python.
-/

namespace GumroadDL

/-- An HTTP response as the client observes it: status code, the two headers
read by get_size_and_content_type, and the body.  The content-length header
is modelled by the result of the int(...) parse in
DownloadSession.get_size_and_content_type (src/download_manager.py lines
100-106): none when the header is absent or malformed. -/
structure Resp where
  status : Nat
  contentType : Option String
  contentLength : Option Nat
  body : String
deriving Repr, DecidableEq

/-- The external world of the program: responses for requests made with the
authenticated session (resp), responses for requests made without it
(respNS, used by get_content_no_session), the mimetypes.guess_extension
mapping of the Python standard library, the sanitize_filename collaborator
from pathvalidate, and the contents of the gitignore template file.
A fixed response per URL models a remote that does not change during the
run; transient chunked-encoding failures are not modelled, so the retry
loop of download_if_not_exists reduces to a single streaming attempt. -/
structure Env where
  resp : String → Resp
  respNS : String → Resp
  guessExt : String → Option String
  sanitize : String → String
  gitignore : String

/-- The mutable state of one run: the four counters of DownloadSession
(src/download_manager.py lines 76-79) and the filesystem, a map from path to
file contents. -/
structure World where
  bytesRead : Nat
  bytesSkipped : Nat
  filesDownloaded : Nat
  filesSkipped : Nat
  fs : String → Option String

def emptyWorld : World :=
  { bytesRead := 0, bytesSkipped := 0, filesDownloaded := 0,
    filesSkipped := 0, fs := fun _ => none }

/-- Writing a file: open(path, mode) followed by write(contents). -/
def World.writeFile (w : World) (path contents : String) : World :=
  { w with fs := fun p => if p = path then some contents else w.fs p }

/-- Python truthiness of an optional integer: None and 0 are falsy. -/
def truthyNat : Option Nat → Bool
  | none => false
  | some n => n != 0

/-- Python truthiness of an optional string: None and the empty string are
falsy. -/
def truthyStr : Option String → Bool
  | none => false
  | some s => s != ""

/-- os.path.join as used here: every call site joins a directory with a
relative file name, which concatenates with a separator. -/
def pathJoin (a b : String) : String := a ++ "/" ++ b

/-- The Python substring test (pat in hay). -/
def strContains (hay pat : String) : Bool := decide (pat.data <:+: hay.data)

/-- The errors the modelled code can raise: requests.HTTPError from
raise_for_status, the size-mismatch Exception of download_if_not_exists
(src/download_manager.py lines 191-192) carrying the output path, the
existing and expected sizes, the bytes actually downloaded and the error
file path, and Python's UnboundLocalError for a local variable referenced
before assignment. -/
inductive DLError where
  | httpError (status : Nat)
  | sizeMismatch (path : String) (existingSize downloadSize bytesWritten : Nat)
      (errorFile : String)
  | unboundLocal (name : String)
deriving Repr, DecidableEq

deriving instance DecidableEq for Except

/-- requests.Response.raise_for_status raises exactly for status codes in
[400, 600). -/
def raise_for_status_fails (status : Nat) : Bool :=
  400 ≤ status && status < 600

/-- DownloadSession.__do_get (src/download_manager.py lines 87-94): tolerate
a 404 when is404_ok is set, otherwise raise_for_status. -/
def do_get (r : Resp) (is404_ok : Bool) : Except DLError Resp :=
  if is404_ok && r.status == 404 then .ok r
  else if raise_for_status_fails r.status then .error (.httpError r.status)
  else .ok r

/-- DownloadSession.get_content (src/download_manager.py lines 117-121):
fetch with the session, then add the body length to bytes_read and
increment files_downloaded. -/
def get_content (env : Env) (url : String) (is404_ok : Bool) (w : World) :
    Except DLError String × World :=
  match do_get (env.resp url) is404_ok with
  | .error e => (.error e, w)
  | .ok r =>
      (.ok r.body,
        { w with bytesRead := w.bytesRead + r.body.length,
                 filesDownloaded := w.filesDownloaded + 1 })

/-- DownloadSession.get_content_no_session (src/download_manager.py lines
110-115): the same, over a session without the authentication cookies. -/
def get_content_no_session (env : Env) (url : String) (is404_ok : Bool)
    (w : World) : Except DLError String × World :=
  match do_get (env.respNS url) is404_ok with
  | .error e => (.error e, w)
  | .ok r =>
      (.ok r.body,
        { w with bytesRead := w.bytesRead + r.body.length,
                 filesDownloaded := w.filesDownloaded + 1 })

/-- DownloadSession.stream_download (src/download_manager.py lines 123-131):
open(path, 'wb') truncates the destination before the GET is issued, so an
HTTP error leaves an empty file behind; on success the chunks land in the
file, bytes_read grows by the body length and files_downloaded by one, and
the total number of bytes written is returned. -/
def stream_download (env : Env) (url output_file_path : String) (w : World) :
    Except DLError Nat × World :=
  let w1 := w.writeFile output_file_path ""
  match do_get (env.resp url) false with
  | .error e => (.error e, w1)
  | .ok r =>
      let w2 := w1.writeFile output_file_path r.body
      (.ok r.body.length,
        { w2 with bytesRead := w2.bytesRead + r.body.length,
                  filesDownloaded := w2.filesDownloaded + 1 })

/-- DownloadSession.get_size_and_content_type (src/download_manager.py lines
96-108): a HEAD request reading the content-length and content-type
headers; never raises. -/
def get_size_and_content_type (env : Env) (url : String) :
    Option Nat × Option String :=
  ((env.resp url).contentLength, (env.resp url).contentType)

/-- The file-name resolution of download_if_not_exists
(src/download_manager.py lines 157-163): a truthy explicit extension is
appended after a dot and the content type is ignored; otherwise a truthy
content type is mapped through mimetypes.guess_extension; a falsy resolved
extension leaves the name unchanged. -/
def resolve_file_name (env : Env) (file_name : String)
    (extension : Option String) (content_type : Option String) : String :=
  let ext1 : Option String :=
    if truthyStr extension then some ("." ++ extension.getD "")
    else if truthyStr content_type then env.guessExt (content_type.getD "")
    else extension
  if truthyStr ext1 then file_name ++ ext1.getD "" else file_name

/-- The size comparison value of download_if_not_exists
(src/download_manager.py lines 151-155): a truthy size argument overrides
the HEAD content-length. -/
def resolved_download_size (env : Env) (url : String) (size : Option Nat) :
    Option Nat :=
  if truthyNat size then size else (get_size_and_content_type env url).1

/-- The tail of download_if_not_exists (src/download_manager.py lines
211-231): stream to the output path, then, when the download size is truthy
and differs from the bytes written, evaluate existing_size for the critical
log message.  existing_size is a Python local assigned only in the
file-exists branch; evaluating it when the file did not exist raises
UnboundLocalError. -/
def download_tail (env : Env) (url output_file_path : String)
    (download_size : Option Nat) (existing_size : Option Nat) (w : World) :
    Except DLError Bool × World :=
  match stream_download env url output_file_path w with
  | (.error e, w1) => (.error e, w1)
  | (.ok bytes_written, w1) =>
      if truthyNat download_size && bytes_written != download_size.getD 0 then
        match existing_size with
        | none => (.error (.unboundLocal "existing_size"), w1)
        | some _ => (.ok true, w1)
      else (.ok true, w1)

/-- DownloadSession.download_if_not_exists (src/download_manager.py lines
133-231).  A truthy size argument overrides the HEAD content-length; the
file name gains an extension via resolve_file_name; then the decision over
the local file state: absent or empty means download, matching size means
skip, a differing size means stream to an error file and raise for a
non-cover resource, and for a cover skip when the download size is at least
the existing size, else download; a falsy download size means download
unconditionally. -/
def download_if_not_exists (env : Env) (url output_path file_name0 : String)
    (extension : Option String) (size : Option Nat) (is_cover : Bool)
    (w : World) : Except DLError Bool × World :=
  let download_size := resolved_download_size env url size
  let file_name := resolve_file_name env file_name0 extension
    (get_size_and_content_type env url).2
  let output_file_path := pathJoin output_path file_name
  match w.fs output_file_path with
  | none => download_tail env url output_file_path download_size none w
  | some contents =>
      let existing_size := contents.length
      if truthyNat download_size then
        if existing_size == 0 then
          download_tail env url output_file_path download_size
            (some existing_size) w
        else if existing_size == download_size.getD 0 then
          (.ok false,
            { w with bytesSkipped := w.bytesSkipped + download_size.getD 0,
                     filesSkipped := w.filesSkipped + 1 })
        else if !is_cover then
          match stream_download env url ("error-" ++ file_name) w with
          | (.error e, w1) => (.error e, w1)
          | (.ok bytes_written, w1) =>
              (.error (.sizeMismatch output_file_path existing_size
                (download_size.getD 0) bytes_written ("error-" ++ file_name)),
               w1)
        else if download_size.getD 0 ≥ existing_size then
          (.ok false,
            { w with bytesSkipped := w.bytesSkipped + download_size.getD 0,
                     filesSkipped := w.filesSkipped + 1 })
        else
          download_tail env url output_file_path download_size
            (some existing_size) w
      else
        download_tail env url output_file_path download_size
          (some existing_size) w

/-- DOWNLOAD_URL_PREFIX of src/gumroad_library.py line 29. -/
def downloadUrlRoot : String := "https://app.gumroad.com"

/-- LIBRARY_URL of src/download_manager.py line 46. -/
def libraryUrl : String := "https://app.gumroad.com/library"

/-- The fields of a content_item record that the modelled code reads
(src/gumroad_library.py, class ContentItem).  itemType is the json field
named type. -/
structure ContentItem where
  id : String
  itemType : String
  external_link_url : Option String
  download_url : Option String
  file_size : Option Nat
  file_name : String
  extension : Option String
deriving Repr, DecidableEq

/-- ContentItem.is_file (src/gumroad_library.py lines 202-204). -/
def ContentItem.is_file (ci : ContentItem) : Bool := ci.itemType == "file"

/-- ContentItem.get_full_download_url (src/gumroad_library.py lines
216-221): a truthy download_url is returned with DOWNLOAD_URL_PREFIX
prepended, otherwise None. -/
def ContentItem.get_full_download_url (ci : ContentItem) : Option String :=
  if truthyStr ci.download_url then some (downloadUrlRoot ++ ci.download_url.getD "")
  else none

/-- ContentItem.is_external (src/gumroad_library.py lines 209-214): False
exactly when the raw download_url is truthy and contains gumroad.com. -/
def ContentItem.is_external (ci : ContentItem) : Bool :=
  !(truthyStr ci.download_url && strContains (ci.download_url.getD "") "gumroad.com")

/-- The fields of a cover record that the modelled code reads
(src/gumroad_library.py, class ProductCover).  coverType is the json field
named type. -/
structure ProductCover where
  id : String
  coverType : String
  original_url : Option String
  filetype : Option String
deriving Repr, DecidableEq

/-- ProductCover.get_url (src/gumroad_library.py lines 55-56). -/
def ProductCover.get_url (c : ProductCover) : Option String := c.original_url

/-- ProductCover.is_external (src/gumroad_library.py lines 58-67): False
exactly when the url is truthy and contains gumroad.com. -/
def ProductCover.is_external (c : ProductCover) : Bool :=
  !(truthyStr c.original_url && strContains (c.original_url.getD "") "gumroad.com")

/-- One product as the orchestrator sees it, carrying both the library-page
record (name, thumbnail, covers, page download url, creator/product
directory path as produced by the sanitization collaborator) and the
outputs of the page-parser collaborator for its detail page (detail page
name, store page url, raw and formatted json, content items).  The
BeautifulSoup/json parsing itself is an external collaborator in the spec
and is abstracted to these parsed fields. -/
structure ProductRecord where
  name : String
  creator_product_path : String
  thumbnail_url : Option String
  covers : Option (List ProductCover)
  page_download_url : String
  detail_name : String
  store_page_url : String
  raw_json : String
  formatted_json : String
  content_items : List ContentItem

/-- LibraryProductDownloader.__download_thumbnail (src/download_manager.py
lines 283-287): a truthy thumbnail url is downloaded under the name
thumbnail with is_cover set. -/
def download_thumbnail (env : Env) (product_dir_path : String)
    (thumbnail_url : Option String) (w : World) : Except DLError Bool × World :=
  if truthyStr thumbnail_url then
    download_if_not_exists env (thumbnail_url.getD "") product_dir_path
      "thumbnail" none none true w
  else (.ok false, w)

/-- The loop body of LibraryProductDownloader.__download_covers
(src/download_manager.py lines 303-314): external covers are skipped with a
log; the rest are downloaded under their id with their filetype as
extension and is_cover set. -/
def download_covers_list (env : Env) (product_dir_path : String) :
    List ProductCover → World → Except DLError Unit × World
  | [], w => (.ok (), w)
  | c :: rest, w =>
      if c.is_external then download_covers_list env product_dir_path rest w
      else
        match download_if_not_exists env (c.get_url.getD "") product_dir_path
            c.id c.filetype none true w with
        | (.error e, w1) => (.error e, w1)
        | (.ok _, w1) => download_covers_list env product_dir_path rest w1

/-- LibraryProductDownloader.__download_covers (src/download_manager.py
lines 289-315): a missing covers block is only logged. -/
def download_covers (env : Env) (product_dir_path : String)
    (covers : Option (List ProductCover)) (w : World) :
    Except DLError Unit × World :=
  match covers with
  | none => (.ok (), w)
  | some cs => download_covers_list env product_dir_path cs w

/-- GumroadProductDownloader construction (src/download_manager.py lines
319-348): fetch the product detail page with the session, save the raw and
formatted json, write the product-page.url shortcut file, then fetch the
store page without the session (404 tolerated) and save it. -/
def gumroad_product_download (env : Env) (product_dir : String)
    (p : ProductRecord) (w : World) : Except DLError Unit × World :=
  match get_content env p.page_download_url false w with
  | (.error e, w1) => (.error e, w1)
  | (.ok _, w1) =>
      let w2 := w1.writeFile (pathJoin product_dir "product-raw.json") p.raw_json
      let w3 := w2.writeFile (pathJoin product_dir "product.json") p.formatted_json
      let w4 := w3.writeFile (pathJoin product_dir "product-page.url")
        ("[InternetShortcut]\nURL=" ++ p.store_page_url)
      match get_content_no_session env p.store_page_url true w4 with
      | (.error e, w5) => (.error e, w5)
      | (.ok store_html, w5) =>
          (.ok (), w5.writeFile (pathJoin product_dir "product-page.html") store_html)

/-- The decision the orchestrator takes for one content item
(src/download_manager.py lines 425-441): with a truthy full download url,
skip when gumroad.com does not occur in that url, else attempt the
download; without one, skip, distinguishing whether an external link url is
present. -/
inductive ItemAction where
  | attempt (full_url : String)
  | skipForeignUrl
  | skipExternalOnly
  | skipNoUrl
deriving Repr, DecidableEq

def content_item_action (ci : ContentItem) : ItemAction :=
  let download_url := ci.get_full_download_url
  if truthyStr download_url then
    if !(strContains (download_url.getD "") "gumroad.com") then .skipForeignUrl
    else .attempt (download_url.getD "")
  else if truthyStr ci.external_link_url then .skipExternalOnly
  else .skipNoUrl

/-- The content-item loop of DownloadManager.download
(src/download_manager.py lines 424-458): an attempted item is downloaded
into a directory named by its id, with its sanitized file name, its
extension and its declared file size as the expected size. -/
def download_content_items (env : Env) (product_dir_path : String) :
    List ContentItem → World → Except DLError Unit × World
  | [], w => (.ok (), w)
  | ci :: rest, w =>
      match content_item_action ci with
      | .attempt download_url =>
          match download_if_not_exists env download_url
              (pathJoin product_dir_path ci.id) (env.sanitize ci.file_name)
              ci.extension ci.file_size false w with
          | (.error e, w1) => (.error e, w1)
          | (.ok _, w1) => download_content_items env product_dir_path rest w1
      | _ => download_content_items env product_dir_path rest w

/-- One iteration of the product loop of DownloadManager.download
(src/download_manager.py lines 403-458): thumbnail and covers, then the
detail and store pages, then the content items that are files. -/
def download_product (env : Env) (output_root_dir : String)
    (p : ProductRecord) (w : World) : Except DLError Unit × World :=
  let product_dir_path := pathJoin output_root_dir p.creator_product_path
  match download_thumbnail env product_dir_path p.thumbnail_url w with
  | (.error e, w1) => (.error e, w1)
  | (.ok _, w1) =>
      match download_covers env product_dir_path p.covers w1 with
      | (.error e, w2) => (.error e, w2)
      | (.ok _, w2) =>
          match gumroad_product_download env product_dir_path p w2 with
          | (.error e, w3) => (.error e, w3)
          | (.ok _, w3) =>
              download_content_items env product_dir_path
                (p.content_items.filter ContentItem.is_file) w3

def products_loop (env : Env) (output_root_dir : String) :
    List ProductRecord → World → Except DLError Unit × World
  | [], w => (.ok (), w)
  | p :: rest, w =>
      match download_product env output_root_dir p w with
      | (.error e, w1) => (.error e, w1)
      | (.ok _, w1) => products_loop env output_root_dir rest w1

/-- LibraryDownloader construction (src/download_manager.py lines 238-258):
fetch the library page with the session and persist it together with the
raw and formatted json produced by the parsing collaborator. -/
def library_download (env : Env) (output_root_dir : String)
    (library_raw_json library_formatted_json : String) (w : World) :
    Except DLError Unit × World :=
  match get_content env libraryUrl false w with
  | (.error e, w1) => (.error e, w1)
  | (.ok body, w1) =>
      let w2 := w1.writeFile (pathJoin output_root_dir "library.html") body
      let w3 := w2.writeFile (pathJoin output_root_dir "library-raw.json")
        library_raw_json
      (.ok (), w3.writeFile (pathJoin output_root_dir "library.json")
        library_formatted_json)

/-- DownloadManager.download (src/download_manager.py lines 391-458) after
page parsing: copy the gitignore template into the output root, fetch and
persist the library page, then run the product loop. -/
def download_manager_run (env : Env) (output_root_dir : String)
    (library_raw_json library_formatted_json : String)
    (products : List ProductRecord) (w : World) : Except DLError Unit × World :=
  let w0 := w.writeFile (pathJoin output_root_dir ".gitignore") env.gitignore
  match library_download env output_root_dir library_raw_json
      library_formatted_json w0 with
  | (.error e, w1) => (.error e, w1)
  | (.ok _, w1) => products_loop env output_root_dir products w1

/-- A model of mimetypes.guess_extension of the Python standard library (a
dependency of src/download_manager.py, not part of src/), restricted to the
content types the claims mention: the default table maps image/png to .png
and the generic application/octet-stream to .bin (checked against CPython
3.11); types outside this restriction are not modelled and yield none here
as a stand-in for absent table entries. -/
def mimetypes_guess_extension : String → Option String
  | "image/png" => some ".png"
  | "application/octet-stream" => some ".bin"
  | _ => none

/-- An environment answering every request with the same response. -/
def constEnv (r : Resp) : Env :=
  { resp := fun _ => r, respNS := fun _ => r,
    guessExt := fun _ => none, sanitize := id, gitignore := "GI" }

/-- A 200 response with a content-length header and no content type. -/
def plainResp (len : Nat) (body : String) : Resp :=
  { status := 200, contentType := none, contentLength := some len, body := body }

/-- Concrete instance for the size-mismatch claim: the remote reports and
serves 3 bytes while the local file at out/f holds 2 bytes. -/
def c1env : Env := constEnv (plainResp 3 "abc")

def c1w : World := emptyWorld.writeFile "out/f" "xy"

/-- Concrete instances for the cover-size-policy claim, with the sizes the
claim names: a 200-byte local file against a 150-byte remote, and a
150-byte local file against a 200-byte remote. -/
def body150 : String := String.mk (List.replicate 150 'b')

def body200 : String := String.mk (List.replicate 200 'a')

def c2envA : Env := constEnv (plainResp 150 body150)

def c2wA : World := emptyWorld.writeFile "out/f" body200

def c2envB : Env := constEnv (plainResp 200 body200)

def c2wB : World := emptyWorld.writeFile "out/f" body150

/-- Concrete instance for the cover policy claim direction that holds. -/
def c3env : Env := constEnv (plainResp 2 "xy")

def c3w : World := emptyWorld.writeFile "out/f" "a"

/-- Second concrete instance for the cover policy claim: a 2-byte local
file against a 1-byte remote, so the remote is strictly smaller. -/
def c3envB : Env := constEnv (plainResp 1 "z")

def c3wB : World := emptyWorld.writeFile "out/f" "xy"

/-- Concrete instance for the post-download size check claim: no local
file, the remote reports 5 bytes but serves 3. -/
def c4env : Env := constEnv
  { status := 200, contentType := none, contentLength := some 5, body := "abc" }

/-- The same remote with an empty local file already present, the prior
state in which the post-download size check does return normally. -/
def c4wEmpty : World := emptyWorld.writeFile "out/f" ""

/-- Concrete instance for the idempotence claim: a consistent remote
serving 3 bytes and reporting 3. -/
def c5env : Env := constEnv (plainResp 3 "abc")

/-- Concrete instance for the extension-derivation claim. -/
def c6env : Env :=
  { constEnv (plainResp 0 "") with guessExt := mimetypes_guess_extension }

/-- Concrete instance for the fetch claim: a 204 status response. -/
def c7env : Env := constEnv
  { status := 204, contentType := none, contentLength := none, body := "hi" }

/-- A 500 status response, for the raising direction of the fetch claim. -/
def c7envErr : Env := constEnv
  { status := 500, contentType := none, contentLength := none, body := "oops" }

/-- A 404 status response, for the tolerated-404 direction of the fetch
claim. -/
def c7env404 : Env := constEnv
  { status := 404, contentType := none, contentLength := none, body := "nf" }

/-- Concrete instance for the foreign-url claim: a content item whose raw
download_url is an absolute url on a foreign host. -/
def foreignItem : ContentItem :=
  { id := "i1", itemType := "file", external_link_url := none,
    download_url := some "https://evil.example/file.zip",
    file_size := some 1, file_name := "file.zip", extension := none }

/-- Concrete instance for the zero-size claim: the HEAD content-length
parses to 0 and a 3-byte local file exists. -/
def c10env : Env := constEnv
  { status := 200, contentType := none, contentLength := some 0, body := "abcd" }

def c10w : World := emptyWorld.writeFile "out/f" "xyz"

/-- The end-to-end scenario of the claim: one product with an external and
an internal cover and two content items, one a normal file, one carrying
only an external link. -/
def coverExt9 : ProductCover :=
  { id := "cov-ext", coverType := "oembed",
    original_url := some "https://youtube.example/watch", filetype := none }

def coverInt9 : ProductCover :=
  { id := "cov-int", coverType := "image",
    original_url := some "https://public-files.gumroad.com/abc.png",
    filetype := some "png" }

def itemNormal9 : ContentItem :=
  { id := "item-1", itemType := "file", external_link_url := none,
    download_url := some "/d/f1", file_size := some 4,
    file_name := "file1", extension := some "zip" }

def itemExternal9 : ContentItem :=
  { id := "item-2", itemType := "file",
    external_link_url := some "https://drive.example/x",
    download_url := none, file_size := none, file_name := "file2",
    extension := none }

def product9 : ProductRecord :=
  { name := "Prod", creator_product_path := "creator/Prod",
    thumbnail_url := none, covers := some [coverExt9, coverInt9],
    page_download_url := "https://app.gumroad.com/d/page1",
    detail_name := "Prod", store_page_url := "https://store.example/p",
    raw_json := "rawjson", formatted_json := "fmtjson",
    content_items := [itemNormal9, itemExternal9] }

/-- The remote for the scenario: the library page, the internal cover (7
bytes, reported consistently), the product detail page, the content file (4
bytes, matching its declared file_size) and, without the session, the store
page. -/
def env9 : Env :=
  { resp := fun url =>
      if url = libraryUrl then
        { status := 200, contentType := some "text/html",
          contentLength := none, body := "libhtml" }
      else if url = "https://public-files.gumroad.com/abc.png" then
        { status := 200, contentType := some "image/png",
          contentLength := some 7, body := "covpng!" }
      else if url = "https://app.gumroad.com/d/page1" then
        { status := 200, contentType := some "text/html",
          contentLength := none, body := "prodhtml" }
      else if url = "https://app.gumroad.com/d/f1" then
        { status := 200, contentType := none,
          contentLength := some 4, body := "zipp" }
      else
        { status := 404, contentType := none, contentLength := none, body := "" },
    respNS := fun url =>
      if url = "https://store.example/p" then
        { status := 200, contentType := some "text/html",
          contentLength := none, body := "storehtml" }
      else
        { status := 404, contentType := none, contentLength := none, body := "" },
    guessExt := mimetypes_guess_extension, sanitize := id, gitignore := "GI" }

/-- The full scenario run. -/
def run9 : Except DLError Unit × World :=
  download_manager_run env9 "out" "libraw" "libfmt" [product9] emptyWorld

/-! Branch lemmas about download_if_not_exists, shared by the claim
theorems below.  Each one characterises the call on one row of the
decision table: matching size, fresh file, cover keep, cover overwrite,
non-cover mismatch, unknown size. -/

theorem dine_skip_of_match (env : Env) (url output_path file_name0 : String)
    (extension : Option String) (size : Option Nat) (is_cover : Bool) (w : World)
    (path c : String) (ds : Nat)
    (hpath : path = pathJoin output_path (resolve_file_name env file_name0
      extension (get_size_and_content_type env url).2))
    (hfs : w.fs path = some c)
    (hds : resolved_download_size env url size = some ds)
    (hds0 : ds ≠ 0)
    (hmatch : c.length = ds) :
    download_if_not_exists env url output_path file_name0 extension size is_cover w =
      (.ok false, { w with bytesSkipped := w.bytesSkipped + ds,
                           filesSkipped := w.filesSkipped + 1 }) := by
  subst hpath
  subst hmatch
  unfold download_if_not_exists
  simp only [hds, hfs, truthyNat, Option.getD]
  simp [hds0]

theorem dine_fresh_download (env : Env) (url output_path file_name0 : String)
    (extension : Option String) (size : Option Nat) (is_cover : Bool) (w : World)
    (path : String) (ds : Nat)
    (hpath : path = pathJoin output_path (resolve_file_name env file_name0
      extension (get_size_and_content_type env url).2))
    (hfs : w.fs path = none)
    (hds : resolved_download_size env url size = some ds)
    (hbody : (env.resp url).body.length = ds)
    (hstatus : raise_for_status_fails (env.resp url).status = false) :
    download_if_not_exists env url output_path file_name0 extension size is_cover w =
      (.ok true,
        { w with fs := fun p => if p = path then some (env.resp url).body
                                else w.fs p,
                 bytesRead := w.bytesRead + ds,
                 filesDownloaded := w.filesDownloaded + 1 }) := by
  subst hpath
  unfold download_if_not_exists download_tail stream_download do_get World.writeFile
  simp only [hfs, hds, hstatus]
  simp [hbody, World.mk.injEq]
  funext p
  by_cases hp : p = pathJoin output_path (resolve_file_name env file_name0
      extension (get_size_and_content_type env url).2) <;> simp [hp]

theorem dine_cover_keep (env : Env) (url output_path file_name0 : String)
    (extension : Option String) (size : Option Nat) (w : World)
    (path c : String) (ds : Nat)
    (hpath : path = pathJoin output_path (resolve_file_name env file_name0
      extension (get_size_and_content_type env url).2))
    (hfs : w.fs path = some c)
    (hne : c.length ≠ 0)
    (hds : resolved_download_size env url size = some ds)
    (hds0 : ds ≠ 0)
    (hdiff : c.length ≠ ds)
    (hge : c.length ≤ ds) :
    download_if_not_exists env url output_path file_name0 extension size true w =
      (.ok false, { w with bytesSkipped := w.bytesSkipped + ds,
                           filesSkipped := w.filesSkipped + 1 }) := by
  subst hpath
  unfold download_if_not_exists
  simp only [hfs, hds]
  simp [truthyNat, hds0, hne, hdiff, hge]

theorem dine_cover_overwrite (env : Env) (url output_path file_name0 : String)
    (extension : Option String) (size : Option Nat) (w : World)
    (path c : String) (ds : Nat)
    (hpath : path = pathJoin output_path (resolve_file_name env file_name0
      extension (get_size_and_content_type env url).2))
    (hfs : w.fs path = some c)
    (hne : c.length ≠ 0)
    (hds : resolved_download_size env url size = some ds)
    (hds0 : ds ≠ 0)
    (hlt : ds < c.length)
    (hstatus : raise_for_status_fails (env.resp url).status = false) :
    download_if_not_exists env url output_path file_name0 extension size true w =
      (.ok true,
        { w with fs := fun p => if p = path then some (env.resp url).body
                                else w.fs p,
                 bytesRead := w.bytesRead + (env.resp url).body.length,
                 filesDownloaded := w.filesDownloaded + 1 }) := by
  subst hpath
  have hdiff : c.length ≠ ds := by omega
  have hnge : ¬ (c.length ≤ ds) := by omega
  unfold download_if_not_exists download_tail stream_download do_get World.writeFile
  simp only [hfs, hds, hstatus]
  simp [truthyNat, hds0, hne, hdiff, hnge, World.mk.injEq]
  funext p
  by_cases hp : p = pathJoin output_path (resolve_file_name env file_name0
      extension (get_size_and_content_type env url).2) <;> simp [hp]

theorem dine_mismatch_error (env : Env) (url output_path file_name0 : String)
    (extension : Option String) (size : Option Nat) (w : World)
    (fn path errPath c : String) (ds : Nat)
    (hfn : fn = resolve_file_name env file_name0 extension
      (get_size_and_content_type env url).2)
    (hpath : path = pathJoin output_path fn)
    (herr : errPath = "error-" ++ fn)
    (hfs : w.fs path = some c)
    (hne : c.length ≠ 0)
    (hds : resolved_download_size env url size = some ds)
    (hds0 : ds ≠ 0)
    (hdiff : c.length ≠ ds)
    (hstatus : raise_for_status_fails (env.resp url).status = false) :
    download_if_not_exists env url output_path file_name0 extension size false w =
      (.error (.sizeMismatch path c.length ds (env.resp url).body.length errPath),
       { w with fs := fun p => if p = errPath then some (env.resp url).body
                               else w.fs p,
                bytesRead := w.bytesRead + (env.resp url).body.length,
                filesDownloaded := w.filesDownloaded + 1 }) := by
  subst hfn
  subst hpath
  subst herr
  unfold download_if_not_exists stream_download do_get World.writeFile
  simp only [hfs, hds, hstatus]
  simp [truthyNat, hds0, hne, hdiff, World.mk.injEq]
  funext p
  by_cases hp : p = "error-" ++ resolve_file_name env file_name0 extension
      (get_size_and_content_type env url).2 <;> simp [hp]

theorem dine_unknown_overwrite (env : Env) (url output_path file_name0 : String)
    (extension : Option String) (size : Option Nat) (is_cover : Bool) (w : World)
    (path c : String)
    (hpath : path = pathJoin output_path (resolve_file_name env file_name0
      extension (get_size_and_content_type env url).2))
    (hfs : w.fs path = some c)
    (hnds : truthyNat (resolved_download_size env url size) = false)
    (hstatus : raise_for_status_fails (env.resp url).status = false) :
    download_if_not_exists env url output_path file_name0 extension size is_cover w =
      (.ok true,
        { w with fs := fun p => if p = path then some (env.resp url).body
                                else w.fs p,
                 bytesRead := w.bytesRead + (env.resp url).body.length,
                 filesDownloaded := w.filesDownloaded + 1 }) := by
  subst hpath
  unfold download_if_not_exists download_tail stream_download do_get World.writeFile
  simp only [hfs, hnds, hstatus]
  simp [World.mk.injEq]
  funext p
  by_cases hp : p = pathJoin output_path (resolve_file_name env file_name0
      extension (get_size_and_content_type env url).2) <;> simp [hp]

/-- Claim C1, counterexample: in the size-mismatch scenario of the claim
(non-cover, known remote size 3, local file of size 2 at out/f) the call
does raise the size-mismatch error, but the streamed error file is written
at path error-f, not at the sibling path out/error-f inside the output
directory that the claim asserts. -/
theorem c1_error_file_not_sibling_cex :
    (download_if_not_exists c1env "u" "out" "f" none none false c1w).1 =
      .error (.sizeMismatch "out/f" 2 3 3 "error-f") ∧
    (download_if_not_exists c1env "u" "out" "f" none none false c1w).2.fs
      "out/error-f" = none ∧
    (download_if_not_exists c1env "u" "out" "f" none none false c1w).2.fs
      "error-f" = some "abc" := by
  refine ⟨?_, ?_, ?_⟩ <;> decide

/-- Claim C1, amended: on a non-cover resource with a known remote size and
an existing local file of nonzero size differing from it, the engine
streams the remote content to the file named error-(name) resolved relative
to the working directory (not joined into the output directory), raises a
size-mismatch error carrying both sizes, and leaves the original local file
untouched. -/
theorem c1_size_mismatch_error_file (env : Env)
    (url output_path file_name0 : String) (extension : Option String)
    (size : Option Nat) (w : World) (fn path errPath c : String) (ds : Nat)
    (hfn : fn = resolve_file_name env file_name0 extension
      (get_size_and_content_type env url).2)
    (hpath : path = pathJoin output_path fn)
    (herr : errPath = "error-" ++ fn)
    (hfs : w.fs path = some c)
    (hne : c.length ≠ 0)
    (hds : resolved_download_size env url size = some ds)
    (hds0 : ds ≠ 0)
    (hdiff : c.length ≠ ds)
    (hstatus : raise_for_status_fails (env.resp url).status = false)
    (hner : path ≠ errPath) :
    (download_if_not_exists env url output_path file_name0 extension size false w).1 =
      .error (.sizeMismatch path c.length ds (env.resp url).body.length errPath) ∧
    (download_if_not_exists env url output_path file_name0 extension size false w).2.fs
      errPath = some (env.resp url).body ∧
    (download_if_not_exists env url output_path file_name0 extension size false w).2.fs
      path = some c := by
  rw [dine_mismatch_error env url output_path file_name0 extension size w
    fn path errPath c ds hfn hpath herr hfs hne hds hds0 hdiff hstatus]
  refine ⟨rfl, by simp, by simp [hner, hfs]⟩

/-- Witness for claim C1 at the concrete mismatch instance. -/
theorem c1_size_mismatch_error_file_witness :
    c1w.fs "out/f" = some "xy" ∧
    ((download_if_not_exists c1env "u" "out" "f" none none false c1w).1 =
        .error (.sizeMismatch "out/f" 2 3 3 "error-f") ∧
      (download_if_not_exists c1env "u" "out" "f" none none false c1w).2.fs
        "error-f" = some "abc" ∧
      (download_if_not_exists c1env "u" "out" "f" none none false c1w).2.fs
        "out/f" = some "xy") :=
  ⟨by decide,
   c1_size_mismatch_error_file c1env "u" "out" "f" none none c1w
     "f" "out/f" "error-f" "xy" 3 (by decide) (by decide) (by decide) (by decide)
     (by decide) (by decide) (by decide) (by decide) (by decide) (by decide)⟩

/-- Claim C2, counterexample: for a cover resource with local size 200 and
remote size 150 the call does not skip, it overwrites, leaving a 150-byte
file; and with local size 150 and remote size 200 the call does not
overwrite, it skips, leaving the 150-byte file in place. -/
theorem c2_cover_policy_cex :
    (download_if_not_exists c2envA "u" "out" "f" none none true c2wA).1 = .ok true ∧
    ((download_if_not_exists c2envA "u" "out" "f" none none true c2wA).2.fs
      "out/f").map String.length = some 150 ∧
    (download_if_not_exists c2envA "u" "out" "f" none none true c2wA).2.filesSkipped = 0 ∧
    (download_if_not_exists c2envB "u" "out" "f" none none true c2wB).1 = .ok false ∧
    ((download_if_not_exists c2envB "u" "out" "f" none none true c2wB).2.fs
      "out/f").map String.length = some 150 := by
  refine ⟨?_, ?_, ?_, ?_, ?_⟩ <;> decide

/-- Claim C2, amended: for a cover resource with a known remote size and an
existing local file of nonzero size different from it, local size 200 and
remote size 150 give an overwrite with resulting size 150, and local size
150 and remote size 200 give a skip that leaves the file unchanged and
counts the skip. -/
theorem c2_cover_policy :
    (∀ (env : Env) (url output_path file_name0 : String)
       (extension : Option String) (size : Option Nat) (w : World)
       (path c : String),
      path = pathJoin output_path (resolve_file_name env file_name0 extension
        (get_size_and_content_type env url).2) →
      w.fs path = some c → c.length = 200 →
      resolved_download_size env url size = some 150 →
      raise_for_status_fails (env.resp url).status = false →
      (env.resp url).body.length = 150 →
      ((download_if_not_exists env url output_path file_name0 extension size true w).1 =
        .ok true ∧
       ((download_if_not_exists env url output_path file_name0 extension size true w).2.fs
         path).map String.length = some 150)) ∧
    (∀ (env : Env) (url output_path file_name0 : String)
       (extension : Option String) (size : Option Nat) (w : World)
       (path c : String),
      path = pathJoin output_path (resolve_file_name env file_name0 extension
        (get_size_and_content_type env url).2) →
      w.fs path = some c → c.length = 150 →
      resolved_download_size env url size = some 200 →
      download_if_not_exists env url output_path file_name0 extension size true w =
        (.ok false, { w with bytesSkipped := w.bytesSkipped + 200,
                             filesSkipped := w.filesSkipped + 1 })) := by
  constructor
  · intro env url output_path file_name0 extension size w path c hpath hfs h200 hds
      hstatus hbody
    rw [dine_cover_overwrite env url output_path file_name0 extension size w
      path c 150 hpath hfs (by omega) hds (by omega) (by omega) hstatus]
    simp [hbody]
  · intro env url output_path file_name0 extension size w path c hpath hfs h150 hds
    exact dine_cover_keep env url output_path file_name0 extension size w
      path c 200 hpath hfs (by omega) hds (by omega) (by omega) (by omega)

/-- Witness for claim C2 at the two concrete cover instances. -/
theorem c2_cover_policy_witness :
    c2wA.fs "out/f" = some body200 ∧ body200.length = 200 ∧
    ((download_if_not_exists c2envA "u" "out" "f" none none true c2wA).1 = .ok true ∧
     ((download_if_not_exists c2envA "u" "out" "f" none none true c2wA).2.fs
       "out/f").map String.length = some 150) ∧
    download_if_not_exists c2envB "u" "out" "f" none none true c2wB =
      (.ok false, { c2wB with bytesSkipped := c2wB.bytesSkipped + 200,
                              filesSkipped := c2wB.filesSkipped + 1 }) :=
  ⟨by decide, by decide,
   c2_cover_policy.1 c2envA "u" "out" "f" none none c2wA "out/f" body200
     (by decide) (by decide) (by decide) (by decide) (by decide) (by decide),
   c2_cover_policy.2 c2envB "u" "out" "f" none none c2wB "out/f" body150
     (by decide) (by decide) (by decide) (by decide)⟩

/-- Claim C3: for a cover resource with a known remote size and an existing
local file of nonzero size different from it, the engine skips when the
remote size is at least the existing size, adding the remote size to
bytes-skipped, incrementing files-skipped and leaving the state otherwise
unchanged; and it re-downloads, overwriting the existing file, exactly when
the remote size is strictly smaller. -/
theorem c3_cover_keep_or_redownload :
    (∀ (env : Env) (url output_path file_name0 : String)
       (extension : Option String) (size : Option Nat) (w : World)
       (path c : String) (ds : Nat),
      path = pathJoin output_path (resolve_file_name env file_name0 extension
        (get_size_and_content_type env url).2) →
      w.fs path = some c → c.length ≠ 0 →
      resolved_download_size env url size = some ds → ds ≠ 0 →
      c.length ≠ ds → c.length ≤ ds →
      download_if_not_exists env url output_path file_name0 extension size true w =
        (.ok false, { w with bytesSkipped := w.bytesSkipped + ds,
                             filesSkipped := w.filesSkipped + 1 })) ∧
    (∀ (env : Env) (url output_path file_name0 : String)
       (extension : Option String) (size : Option Nat) (w : World)
       (path c : String) (ds : Nat),
      path = pathJoin output_path (resolve_file_name env file_name0 extension
        (get_size_and_content_type env url).2) →
      w.fs path = some c → c.length ≠ 0 →
      resolved_download_size env url size = some ds → ds ≠ 0 →
      ds < c.length → raise_for_status_fails (env.resp url).status = false →
      ((download_if_not_exists env url output_path file_name0 extension size true w).1 =
        .ok true ∧
       (download_if_not_exists env url output_path file_name0 extension size true w).2.fs
         path = some (env.resp url).body ∧
       (download_if_not_exists env url output_path file_name0 extension size true w).2.filesDownloaded =
         w.filesDownloaded + 1)) := by
  constructor
  · intro env url output_path file_name0 extension size w path c ds hpath hfs hne hds
      hds0 hdiff hge
    exact dine_cover_keep env url output_path file_name0 extension size w
      path c ds hpath hfs hne hds hds0 hdiff hge
  · intro env url output_path file_name0 extension size w path c ds hpath hfs hne hds
      hds0 hlt hstatus
    rw [dine_cover_overwrite env url output_path file_name0 extension size w
      path c ds hpath hfs hne hds hds0 hlt hstatus]
    simp

/-- Witness for claim C3 at two concrete cover instances, one per
direction. -/
theorem c3_cover_keep_or_redownload_witness :
    c3w.fs "out/f" = some "a" ∧
    download_if_not_exists c3env "u" "out" "f" none none true c3w =
      (.ok false, { c3w with bytesSkipped := c3w.bytesSkipped + 2,
                             filesSkipped := c3w.filesSkipped + 1 }) ∧
    c3wB.fs "out/f" = some "xy" ∧
    ((download_if_not_exists c3envB "u" "out" "f" none none true c3wB).1 = .ok true ∧
     (download_if_not_exists c3envB "u" "out" "f" none none true c3wB).2.fs
       "out/f" = some "z" ∧
     (download_if_not_exists c3envB "u" "out" "f" none none true c3wB).2.filesDownloaded =
       c3wB.filesDownloaded + 1) :=
  ⟨by decide,
   c3_cover_keep_or_redownload.1 c3env "u" "out" "f" none none c3w "out/f" "a" 2
     (by decide) (by decide) (by decide) (by decide) (by decide) (by decide) (by decide),
   by decide,
   c3_cover_keep_or_redownload.2 c3envB "u" "out" "f" none none c3wB "out/f" "xy" 1
     (by decide) (by decide) (by decide) (by decide) (by decide) (by decide) (by decide)⟩

/-- Claim C4: when a download is performed with a known expected size and
the bytes written differ from it, the call is meant to log and return
normally; it does so when a local file existed before the call (here, an
empty one), but when no local file existed the critical log line evaluates
the never-assigned local variable existing_size and the call fails with an
UnboundLocalError instead of returning, with the downloaded file already on
disk. -/
theorem c4_unbound_local_on_fresh_mismatch :
    (download_if_not_exists c4env "u" "out" "f" none none false emptyWorld).1 =
      .error (.unboundLocal "existing_size") ∧
    (download_if_not_exists c4env "u" "out" "f" none none false emptyWorld).2.fs
      "out/f" = some "abc" ∧
    (download_if_not_exists c4env "u" "out" "f" none none false c4wEmpty).1 =
      .ok true := by
  refine ⟨?_, ?_, ?_⟩ <;> decide

/-- Claim C5: on a non-cover resource whose remote size is known and
consistent (the body has the reported length), starting from a state with
no file at the resolved path, the first call downloads and the second call
over the resulting state skips, incrementing the skipped counters and
leaving the state otherwise unchanged. -/
theorem c5_idempotent_second_call_skips (env : Env)
    (url output_path file_name0 : String) (extension : Option String)
    (size : Option Nat) (w : World) (path : String) (ds : Nat)
    (hpath : path = pathJoin output_path (resolve_file_name env file_name0
      extension (get_size_and_content_type env url).2))
    (hfs : w.fs path = none)
    (hds : resolved_download_size env url size = some ds)
    (hds0 : ds ≠ 0)
    (hbody : (env.resp url).body.length = ds)
    (hstatus : raise_for_status_fails (env.resp url).status = false) :
    (download_if_not_exists env url output_path file_name0 extension size false w).1 =
      .ok true ∧
    (download_if_not_exists env url output_path file_name0 extension size false w).2.filesDownloaded =
      w.filesDownloaded + 1 ∧
    download_if_not_exists env url output_path file_name0 extension size false
        (download_if_not_exists env url output_path file_name0 extension size false w).2 =
      (.ok false,
       { (download_if_not_exists env url output_path file_name0 extension size false w).2 with
           bytesSkipped :=
             (download_if_not_exists env url output_path file_name0 extension size false w).2.bytesSkipped + ds,
           filesSkipped :=
             (download_if_not_exists env url output_path file_name0 extension size false w).2.filesSkipped + 1 }) := by
  have h1 := dine_fresh_download env url output_path file_name0 extension size
    false w path ds hpath hfs hds hbody hstatus
  refine ⟨by rw [h1], by rw [h1], ?_⟩
  rw [h1]
  exact dine_skip_of_match env url output_path file_name0 extension size false _
    path (env.resp url).body ds hpath (by simp) hds hds0 hbody

/-- Witness for claim C5 at the concrete consistent remote. -/
theorem c5_idempotent_second_call_skips_witness :
    emptyWorld.fs "out/f" = none ∧
    ((download_if_not_exists c5env "u" "out" "f" none none false emptyWorld).1 =
      .ok true ∧
     (download_if_not_exists c5env "u" "out" "f" none none false emptyWorld).2.filesDownloaded =
      emptyWorld.filesDownloaded + 1 ∧
     download_if_not_exists c5env "u" "out" "f" none none false
        (download_if_not_exists c5env "u" "out" "f" none none false emptyWorld).2 =
      (.ok false,
       { (download_if_not_exists c5env "u" "out" "f" none none false emptyWorld).2 with
           bytesSkipped :=
             (download_if_not_exists c5env "u" "out" "f" none none false emptyWorld).2.bytesSkipped + 3,
           filesSkipped :=
             (download_if_not_exists c5env "u" "out" "f" none none false emptyWorld).2.filesSkipped + 1 })) :=
  ⟨by decide,
   c5_idempotent_second_call_skips c5env "u" "out" "f" none none emptyWorld
     "out/f" 3 (by decide) (by decide) (by decide) (by decide) (by decide) (by decide)⟩

theorem dot_append_ne_empty (e : String) : ("." ++ e) ≠ "" := by
  intro h
  have h2 := congrArg String.length h
  simp [String.length_append] at h2
  exact absurd h2.1 (by decide)

theorem string_append_assoc (a b c : String) : a ++ b ++ c = a ++ (b ++ c) := by
  cases a with | mk l =>
  cases b with | mk m =>
  cases c with | mk n =>
  show String.mk ((l ++ m) ++ n) = String.mk (l ++ (m ++ n))
  rw [List.append_assoc]

/-- Claim C6, counterexample: with no explicit extension, the content type
application/octet-stream does not yield an extensionless name; the
mimetypes table of the Python standard library maps it to .bin, which is
appended. -/
theorem c6_octet_stream_extension_cex :
    resolve_file_name c6env "file" none (some "application/octet-stream") = "file.bin" ∧
    c6env.guessExt "application/octet-stream" = some ".bin" := by
  constructor <;> decide

/-- Claim C6, amended: a truthy explicit extension is appended after a dot
with the content type ignored entirely; with no explicit extension the
extension comes from mapping the HEAD content type through the mimetypes
table, so image/png yields a name ending in .png; content types the table
does not map yield no extension, but the generic application/octet-stream
is mapped by the table (to .bin) and so does gain an extension. -/
theorem c6_extension_resolution :
    (∀ (env : Env) (base : String) (ct : Option String) (e : String), e ≠ "" →
      resolve_file_name env base (some e) ct = base ++ "." ++ e) ∧
    (∀ (env : Env) (base : String), env.guessExt "image/png" = some ".png" →
      resolve_file_name env base none (some "image/png") = base ++ ".png") ∧
    (∀ (env : Env) (base ct : String), env.guessExt ct = none →
      resolve_file_name env base none (some ct) = base) ∧
    resolve_file_name c6env "file" none (some "application/octet-stream") = "file.bin" := by
  refine ⟨?_, ?_, ?_, by decide⟩
  · intro env base ct e he
    rw [string_append_assoc]
    simp [resolve_file_name, truthyStr, he, dot_append_ne_empty e]
  · intro env base hg
    simp [resolve_file_name, truthyStr, hg]
  · intro env base ct hg
    by_cases hc : ct = "" <;> simp [resolve_file_name, truthyStr, hc, hg]

/-- Witness for claim C6 at concrete extensions and content types. -/
theorem c6_extension_resolution_witness :
    ("png" : String) ≠ "" ∧
    resolve_file_name c6env "name" (some "png") (some "text/html") = "name" ++ "." ++ "png" ∧
    c6env.guessExt "image/png" = some ".png" ∧
    resolve_file_name c6env "pic" none (some "image/png") = "pic" ++ ".png" ∧
    c6env.guessExt "foo/bar" = none ∧
    resolve_file_name c6env "doc" none (some "foo/bar") = "doc" :=
  ⟨by decide, c6_extension_resolution.1 c6env "name" (some "text/html") "png" (by decide),
   by decide, c6_extension_resolution.2.1 c6env "pic" (by decide),
   by decide, c6_extension_resolution.2.2.1 c6env "doc" "foo/bar" (by decide)⟩

/-- Claim C7, counterexample: a response with status 204 is neither 200 nor
404, yet the fetch does not raise: it returns the body and increments the
counters. -/
theorem c7_status_204_no_raise_cex :
    (c7env.resp "u").status = 204 ∧
    (get_content c7env "u" false emptyWorld).1 = .ok "hi" ∧
    (get_content c7env "u" false emptyWorld).2.bytesRead = 2 ∧
    (get_content c7env "u" false emptyWorld).2.filesDownloaded = 1 := by
  refine ⟨?_, ?_, ?_, ?_⟩ <;> decide

/-- Claim C7, amended: the fetch raises an http error exactly when the
status is in the 400 to 599 range and is not a 404 tolerated by the
allow-404 flag, leaving the state unchanged; every other call returns the
body and increments the byte counter by the body length and the file
counter by one. -/
theorem c7_get_content_spec (env : Env) (url : String) (is404_ok : Bool)
    (w : World) :
    ((is404_ok && (env.resp url).status == 404) = false →
      raise_for_status_fails (env.resp url).status = true →
      get_content env url is404_ok w = (.error (.httpError (env.resp url).status), w)) ∧
    ((is404_ok && (env.resp url).status == 404) = true ∨
        raise_for_status_fails (env.resp url).status = false →
      get_content env url is404_ok w =
        (.ok (env.resp url).body,
         { w with bytesRead := w.bytesRead + (env.resp url).body.length,
                  filesDownloaded := w.filesDownloaded + 1 })) := by
  constructor
  · intro h1 h2
    unfold get_content do_get
    simp [h1, h2]
  · intro h
    unfold get_content do_get
    rcases h with h | h
    · simp [h]
    · simp [h]

/-- Witness for claim C7 at a 500, a 204 and a tolerated 404 response. -/
theorem c7_get_content_spec_witness :
    raise_for_status_fails (c7envErr.resp "u").status = true ∧
    get_content c7envErr "u" false emptyWorld =
      (.error (.httpError 500), emptyWorld) ∧
    raise_for_status_fails (c7env.resp "u").status = false ∧
    (get_content c7env "u" false emptyWorld).1 = .ok "hi" ∧
    ((true && (c7env404.resp "u").status == 404) = true) ∧
    (get_content c7env404 "u" true emptyWorld).1 = .ok "nf" :=
  ⟨by decide,
   (c7_get_content_spec c7envErr "u" false emptyWorld).1 (by decide) (by decide),
   by decide,
   by rw [(c7_get_content_spec c7env "u" false emptyWorld).2 (Or.inr (by decide))]; rfl,
   by decide,
   by rw [(c7_get_content_spec c7env404 "u" true emptyWorld).2 (Or.inl (by decide))]; rfl⟩

theorem root_append_ne_empty (s : String) : (downloadUrlRoot ++ s) ≠ "" := by
  intro h
  have h2 := congrArg String.length h
  simp [String.length_append] at h2
  exact absurd h2.1 (by decide)

theorem strContains_root_append (s : String) :
    strContains (downloadUrlRoot ++ s) "gumroad.com" = true := by
  unfold strContains
  rw [decide_eq_true_eq]
  have hroot : "gumroad.com".data <:+: downloadUrlRoot.data := by decide
  obtain ⟨u, v, huv⟩ := hroot
  exact ⟨u, v ++ s.data, by rw [String.data_append, ← huv]; simp⟩

theorem action_ne_foreign (ci : ContentItem) :
    content_item_action ci ≠ .skipForeignUrl := by
  cases hd : ci.download_url with
  | none =>
      simp [content_item_action, ContentItem.get_full_download_url, hd, truthyStr]
      split
      · intro hcon; cases hcon
      · intro hcon; cases hcon
  | some s =>
      by_cases hs : s = ""
      · subst hs
        simp [content_item_action, ContentItem.get_full_download_url, hd, truthyStr]
        split
        · intro hcon; cases hcon
        · intro hcon; cases hcon
      · have h1 : truthyStr (some s) = true := by simp [truthyStr, hs]
        have hne := root_append_ne_empty s
        have h2 : truthyStr (some (downloadUrlRoot ++ s)) = true := by
          simp [truthyStr, hne]
        simp [content_item_action, ContentItem.get_full_download_url, hd, h1, h2,
          strContains_root_append]

/-- Claim C8: because the full download url is built by prepending the
platform root, the substring gumroad.com occurs in every full download url,
so the foreign-url guard of the orchestrator never fires: no content item
with a download url is ever skipped as foreign, and a concrete item whose
raw download url points at a foreign host (external by the repository's own
is_external test) still has a download attempted for it. -/
theorem c8_foreign_guard_dead :
    (∀ s : String, strContains (downloadUrlRoot ++ s) "gumroad.com" = true) ∧
    (∀ ci : ContentItem, content_item_action ci ≠ .skipForeignUrl) ∧
    content_item_action foreignItem =
      .attempt ("https://app.gumroad.com" ++ "https://evil.example/file.zip") ∧
    foreignItem.is_external = true ∧
    strContains ((foreignItem.download_url).getD "") "gumroad.com" = false :=
  ⟨strContains_root_append, action_ne_foreign, by decide, by decide, by decide⟩

/-- Claim C9, counterexample: the scenario run completes, but the
files-downloaded counter of the session reports 5, not 2, because the
library page, the product detail page and the store page fetches also
increment it. -/
theorem c9_files_downloaded_counter_cex :
    run9.1 = .ok () ∧ run9.2.filesDownloaded = 5 := by
  constructor <;> decide

/-- Claim C9, amended: in the scenario the internal cover is downloaded to
a file named by its id, the external cover produces no file, the normal
content item is downloaded into a directory named by its id, the
external-link-only item produces no file, and the files-downloaded counter
ends at 5 (the two resource downloads plus the library, product and store
page fetches), with nothing counted as skipped. -/
theorem c9_end_to_end_scenario :
    run9.1 = .ok () ∧
    run9.2.fs "out/creator/Prod/cov-int.png" = some "covpng!" ∧
    run9.2.fs "out/creator/Prod/cov-ext" = none ∧
    run9.2.fs "out/creator/Prod/cov-ext.png" = none ∧
    run9.2.fs "out/creator/Prod/item-1/file1.zip" = some "zipp" ∧
    run9.2.fs "out/creator/Prod/item-2/file2" = none ∧
    run9.2.filesDownloaded = 5 ∧
    run9.2.filesSkipped = 0 ∧
    run9.2.bytesRead = 35 := by
  refine ⟨?_, ?_, ?_, ?_, ?_, ?_, ?_, ?_, ?_⟩ <;> decide

/-- Claim C10: a size argument of exactly 0 is falsy and so does not
override the HEAD-derived size (the call behaves identically to passing no
size), and when the resolved download size is 0 with an existing local
file the engine takes the unknown-size unconditional-overwrite branch:
the call returns true, the file is overwritten with the body, and nothing
is counted as skipped. -/
theorem c10_zero_size_unknown :
    (∀ (env : Env) (url output_path file_name0 : String)
       (extension : Option String) (is_cover : Bool) (w : World),
      download_if_not_exists env url output_path file_name0 extension (some 0) is_cover w =
      download_if_not_exists env url output_path file_name0 extension none is_cover w) ∧
    (∀ (env : Env) (url output_path file_name0 : String)
       (extension : Option String) (size : Option Nat) (is_cover : Bool)
       (w : World) (path c : String),
      path = pathJoin output_path (resolve_file_name env file_name0 extension
        (get_size_and_content_type env url).2) →
      w.fs path = some c →
      resolved_download_size env url size = some 0 →
      raise_for_status_fails (env.resp url).status = false →
      ((download_if_not_exists env url output_path file_name0 extension size is_cover w).1 = .ok true ∧
       (download_if_not_exists env url output_path file_name0 extension size is_cover w).2.fs path =
         some (env.resp url).body ∧
       (download_if_not_exists env url output_path file_name0 extension size is_cover w).2.filesSkipped =
         w.filesSkipped)) := by
  constructor
  · intro env url output_path file_name0 extension is_cover w
    rfl
  · intro env url output_path file_name0 extension size is_cover w path c hpath hfs hds hstatus
    have hnds : truthyNat (resolved_download_size env url size) = false := by
      rw [hds]; rfl
    rw [dine_unknown_overwrite env url output_path file_name0 extension size
      is_cover w path c hpath hfs hnds hstatus]
    simp

/-- Witness for claim C10 at a remote whose content-length header parses to
0 while a 3-byte local file exists. -/
theorem c10_zero_size_unknown_witness :
    download_if_not_exists c10env "u" "out" "f" none (some 0) false c10w =
      download_if_not_exists c10env "u" "out" "f" none none false c10w ∧
    c10w.fs "out/f" = some "xyz" ∧
    resolved_download_size c10env "u" none = some 0 ∧
    ((download_if_not_exists c10env "u" "out" "f" none none false c10w).1 = .ok true ∧
     (download_if_not_exists c10env "u" "out" "f" none none false c10w).2.fs "out/f" = some "abcd" ∧
     (download_if_not_exists c10env "u" "out" "f" none none false c10w).2.filesSkipped = c10w.filesSkipped) :=
  ⟨c10_zero_size_unknown.1 c10env "u" "out" "f" none false c10w,
   by decide, by decide,
   c10_zero_size_unknown.2 c10env "u" "out" "f" none none false c10w "out/f" "xyz"
     (by decide) (by decide) (by decide) (by decide)⟩

end GumroadDL
